import Mathlib

/-!
Verification of the invocation router and remote-execution adapter of
`samcli/commands/local/lib/lambda_runner.py` and
`samcli/commands/local/lib/remote_lambda.py`.

The two Python classes are shallowly embedded: the dispatch decision of
`LambdaRunner.invoke` is returned as the list of executor calls it performs,
and `RemoteLambdaRunner.invoke` is a pure function from the (externally
produced) remote execution result to a record of every observable effect:
writes to the stdout/stderr sinks, `LOG.debug` emissions, the bare `print`
call, how often the result stream was pulled and the payload stream read,
and the final outcome (normal return or the exception raised).
-/

set_option autoImplicit false

namespace SamCli

/-- A byte string (`bytes` in Python), as a list of byte values. -/
abbrev Bytes := List Nat

/-- An output sink (`samcli.lib.utils.stream_writer.StreamWriter`, external to
the supplied sources). The spec treats it as an opaque write-only channel with
`write_str` / `write_bytes`; writes are observed through traces, so the writer
itself is just an opaque handle. A `StreamWriter` object is always truthy in
Python, hence `if stderr:` is modelled as `stderr.isSome`. -/
structure StreamWriter where
  handle : Nat
deriving DecidableEq

/-- One write observed on a sink: `w.write_str s` or `w.write_bytes b`. -/
inductive WriteEvent where
  | write_str (s : String)
  | write_bytes (b : Bytes)
deriving DecidableEq

/-- One `LOG.debug` emission on the diagnostic channel: either a plain string
or the (decoded) bytes object passed to it. -/
inductive LogEvent where
  | logStr (s : String)
  | logBytes (b : Bytes)
deriving DecidableEq

/-- Modelled from the spec: `DebugContext`
(`samcli/commands/local/lib/debug_context.py` is not among the supplied
sources). The code and spec use only its Python truthiness — "a
present-and-truthy context ⇒ debugging session" — so the model keeps exactly
that truth value. -/
structure DebugContext where
  truthy : Bool
deriving DecidableEq

/-- The single record an invocation's result stream can yield
(`RemoteInvokeResponse` of `samcli.lib.remote_invoke`, external to the
supplied sources; the spec's `ExecutionRecord{payloadStream, errorIndicator?,
rawLogField?}`).

* `payload` — the contents of the `response["Payload"]` stream, obtained by
  the single `.read()` call;
* `error` — the record's error indicator; when present it is an
  exception-like object, hence truthy, so `if remote_invoke_response.error:`
  is modelled as `error.isSome`;
* `logResult` — the raw base64 `response["LogResult"]` field; absent unless
  log capture was requested, in which case `response["LogResult"]` raises a
  `KeyError`. -/
structure RemoteInvokeResponse where
  payload : Bytes
  error : Option String
  logResult : Option String
deriving DecidableEq

/-- How a call to `RemoteLambdaRunner.invoke` terminates. The source raises
plain `Exception` objects; the constructors tag the raise site and the
message it carries, following the spec's error taxonomy. -/
inductive InvokeOutcome where
  /-- Normal return (the success path). -/
  | success
  /-- `raise Exception(remote_invoke_response.error)` — the invoked function
  itself reported an error; carries the error detail from the record. -/
  | functionError (detail : String)
  /-- `raise Exception("Remote invoke failed to execute. ...")` — the
  transport-level failure raised when the result stream yields no record. -/
  | transportFailure (message : String)
  /-- Python `KeyError` escaping from `response["LogResult"]` in the
  debug-logging block. -/
  | keyError (key : String)
  /-- Python `binascii.Error` escaping from `base64.b64decode` in the
  debug-logging block (malformed base64). -/
  | binasciiError
deriving DecidableEq

/-- Everything observable about one call to `RemoteLambdaRunner.invoke`. -/
structure InvokeResult where
  /-- The `(function_identifier, event)` pair handed to the remote executor. -/
  executor_request : String × String
  /-- Writes performed on the `stdout` sink, in order. -/
  stdout_trace : List WriteEvent
  /-- Writes performed on the `stderr` sink, in order. -/
  stderr_trace : List WriteEvent
  /-- `LOG.debug` emissions on the diagnostic channel, in order. -/
  log_trace : List LogEvent
  /-- Arguments of the bare `print("RESPONSE PAYLOAD", ...)` call. -/
  print_trace : List Bytes
  /-- How many times `response["Payload"].read()` was performed. -/
  payload_reads : Nat
  /-- How many times `next(...)` pulled on the result stream. -/
  stream_pulls : Nat
  /-- Normal return, or the exception that escaped. -/
  outcome : InvokeOutcome
deriving DecidableEq

/-- Six-bit value of a base64 alphabet character, `none` outside the
alphabet. -/
def b64Val (c : Char) : Option Nat :=
  if 'A' ≤ c ∧ c ≤ 'Z' then some (c.toNat - 'A'.toNat)
  else if 'a' ≤ c ∧ c ≤ 'z' then some (c.toNat - 'a'.toNat + 26)
  else if '0' ≤ c ∧ c ≤ '9' then some (c.toNat - '0'.toNat + 52)
  else if c = '+' then some 62
  else if c = '/' then some 63
  else none

/-- Decode a filtered base64 character sequence four characters at a time,
honouring trailing `=` padding; `none` on an ill-formed quad. -/
def b64Quads : List Char → Option Bytes
  | [] => some []
  | c1 :: c2 :: c3 :: c4 :: rest =>
    match b64Val c1, b64Val c2 with
    | some v1, some v2 =>
      if c3 = '=' then
        if c4 = '=' ∧ rest = [] then some [v1 * 4 + v2 / 16]
        else none
      else
        match b64Val c3 with
        | some v3 =>
          if c4 = '=' then
            if rest = [] then some [v1 * 4 + v2 / 16, v2 % 16 * 16 + v3 / 4]
            else none
          else
            match b64Val c4 with
            | some v4 =>
              match b64Quads rest with
              | some bs =>
                some ((v1 * 4 + v2 / 16) :: (v2 % 16 * 16 + v3 / 4) ::
                      (v3 % 4 * 64 + v4) :: bs)
              | none => none
            | none => none
        | none => none
    | _, _ => none
  | _ => none

/-- Modelled from the spec: `base64.b64decode` of the Python standard library
(an external collaborator). With its default lenient validation it discards
characters outside the alphabet and then requires the remaining length to be
a multiple of four; `none` stands for the `binascii.Error` it raises on
incorrect padding (for example on the malformed input `"A"`). -/
def b64decode (s : String) : Option Bytes :=
  let cs := s.toList.filter fun c => (b64Val c).isSome || c = '='
  if cs.length % 4 = 0 then b64Quads cs else none

/-- Embedding of `samcli.commands.local.lib.remote_lambda.RemoteLambdaRunner`:
the configuration stored by `__init__`. -/
structure RemoteLambdaRunner where
  debug_context : Option DebugContext
  aws_profile : Option String
  aws_region : Option String
deriving DecidableEq

/-- `RemoteLambdaRunner.MAX_DEBUG_TIMEOUT = 36000` (10 hours in seconds). -/
def RemoteLambdaRunner.MAX_DEBUG_TIMEOUT : Nat := 36000

/-- `RemoteLambdaRunner.WIN_ERROR_CODE = 1314`. -/
def RemoteLambdaRunner.WIN_ERROR_CODE : Nat := 1314

/-- `RemoteLambdaRunner.is_debugging`: `return bool(self.debug_context)` —
Python truthiness of an optional `DebugContext` (`None` is falsy, otherwise
the context's own truth value). -/
def RemoteLambdaRunner.is_debugging (self : RemoteLambdaRunner) : Bool :=
  match self.debug_context with
  | none => false
  | some ctx => ctx.truthy

/-- Embedding of `RemoteLambdaRunner.invoke`. The boto client provider, the
`LambdaInvokeExecutor` and its `execute` call are external collaborators; the
lazy at-most-one-record result stream they produce is supplied as
`remote_execution_info`, the value the single `next(remote_execution_info)`
pull yields (`none` models a stream that yields no record, which the source
checks with `if remote_invoke_response is None:`). Client-construction
failures propagate before any step modelled here.

The body mirrors the source line by line: pull the stream once; on `none`
write the notice to `stderr` (when present) and raise the transport failure;
otherwise read the payload once, `print` it unconditionally, then branch on
the record's error indicator — error path writes notice and payload bytes to
`stderr` (when present), performs the debug logging when `is_debugging`
(where `response["LogResult"]` may raise `KeyError` and `base64.b64decode`
may raise `binascii.Error`, each after the first `LOG.debug` string), and
raises the function error; success path writes the payload bytes to `stdout`
(when present) and returns. -/
def RemoteLambdaRunner.invoke (self : RemoteLambdaRunner)
    (function_identifier : String) (event : String)
    (stdout : Option StreamWriter) (stderr : Option StreamWriter)
    (remote_execution_info : Option RemoteInvokeResponse) : InvokeResult :=
  match remote_execution_info with
  | none =>
    { executor_request := (function_identifier, event)
      stdout_trace := []
      stderr_trace :=
        if stderr.isSome then [WriteEvent.write_str "Remote invoke failed."] else []
      log_trace := []
      print_trace := []
      payload_reads := 0
      stream_pulls := 1
      outcome := InvokeOutcome.transportFailure
        "Remote invoke failed to execute. remote_executor did not return any response when iterating" }
  | some remote_invoke_response =>
    let response_payload := remote_invoke_response.payload
    match remote_invoke_response.error with
    | some err =>
      let err_trace :=
        if stderr.isSome then
          [WriteEvent.write_str "Remote invoke failed",
           WriteEvent.write_bytes response_payload]
        else []
      if self.is_debugging then
        match remote_invoke_response.logResult with
        | none =>
          { executor_request := (function_identifier, event)
            stdout_trace := []
            stderr_trace := err_trace
            log_trace := [LogEvent.logStr "Remote invoke failed:"]
            print_trace := [response_payload]
            payload_reads := 1
            stream_pulls := 1
            outcome := InvokeOutcome.keyError "LogResult" }
        | some raw =>
          match b64decode raw with
          | none =>
            { executor_request := (function_identifier, event)
              stdout_trace := []
              stderr_trace := err_trace
              log_trace := [LogEvent.logStr "Remote invoke failed:"]
              print_trace := [response_payload]
              payload_reads := 1
              stream_pulls := 1
              outcome := InvokeOutcome.binasciiError }
          | some decoded =>
            { executor_request := (function_identifier, event)
              stdout_trace := []
              stderr_trace := err_trace
              log_trace := [LogEvent.logStr "Remote invoke failed:",
                            LogEvent.logBytes decoded]
              print_trace := [response_payload]
              payload_reads := 1
              stream_pulls := 1
              outcome := InvokeOutcome.functionError err }
      else
        { executor_request := (function_identifier, event)
          stdout_trace := []
          stderr_trace := err_trace
          log_trace := []
          print_trace := [response_payload]
          payload_reads := 1
          stream_pulls := 1
          outcome := InvokeOutcome.functionError err }
    | none =>
      { executor_request := (function_identifier, event)
        stdout_trace :=
          if stdout.isSome then [WriteEvent.write_bytes response_payload] else []
        stderr_trace := []
        log_trace := []
        print_trace := [response_payload]
        payload_reads := 1
        stream_pulls := 1
        outcome := InvokeOutcome.success }

/-- A local function definition held by the registry (`samcli.lib.providers`
`Function`, external to the supplied sources). Opaque to this core: only its
presence matters, and as a non-empty named tuple it is always truthy. -/
structure FunctionDef where
  mk ::
deriving DecidableEq

/-- The function-definition registry: `provider.get(identifier)` returns the
function or `None`. -/
structure SamFunctionProvider where
  get : String → Option FunctionDef

/-- `samcli.commands.local.lib.local_lambda.LocalLambdaRunner` (external to
the supplied sources): the router only reads its `provider` registry and
delegates to its opaque `invoke`. -/
structure LocalLambdaRunner where
  provider : SamFunctionProvider

/-- One delegation performed by `LambdaRunner.invoke`: the full argument list
handed to `local_lambda_runner.invoke` or `remote_lambda_runner.invoke`. -/
inductive ExecutorCall where
  | localCall (function_identifier event : String)
      (stdout stderr : Option StreamWriter)
  | remoteCall (function_identifier event : String)
      (stdout stderr : Option StreamWriter)
deriving DecidableEq

/-- Embedding of `samcli.commands.local.lib.lambda_runner.LambdaRunner`. -/
structure LambdaRunner where
  local_lambda_runner : LocalLambdaRunner
  remote_lambda_runner : RemoteLambdaRunner

/-- Embedding of `LambdaRunner.invoke`, returning the list of executor calls
it performs, in order: resolve the identifier through
`self.local_lambda_runner.provider.get`; `if not function:` delegate to the
remote runner, else to the local runner (a resolved `Function` is a
non-empty named tuple, hence truthy iff present). -/
def LambdaRunner.invoke (self : LambdaRunner)
    (function_identifier : String) (event : String)
    (stdout : Option StreamWriter) (stderr : Option StreamWriter) :
    List ExecutorCall :=
  let function := self.local_lambda_runner.provider.get function_identifier
  match function with
  | none => [ExecutorCall.remoteCall function_identifier event stdout stderr]
  | some _ => [ExecutorCall.localCall function_identifier event stdout stderr]

/-- Number of delegations to the local executor in a call list. -/
def localCallCount (calls : List ExecutorCall) : Nat :=
  (calls.filter fun c =>
    match c with
    | ExecutorCall.localCall .. => true
    | ExecutorCall.remoteCall .. => false).length

/-- Number of delegations to the remote invoker in a call list. -/
def remoteCallCount (calls : List ExecutorCall) : Nat :=
  (calls.filter fun c =>
    match c with
    | ExecutorCall.localCall .. => false
    | ExecutorCall.remoteCall .. => true).length

/-! Concrete sample values used by witnesses and counterexamples. -/

/-- A concrete output sink. -/
def sampleWriter : StreamWriter := ⟨0⟩

/-- A remote runner configured without a debug context. -/
def sampleRemote : RemoteLambdaRunner :=
  { debug_context := none, aws_profile := none, aws_region := none }

/-- A remote runner configured with a truthy debug context. -/
def debugRemote : RemoteLambdaRunner :=
  { debug_context := some { truthy := true }, aws_profile := none, aws_region := none }

/-- A router whose registry resolves every identifier. -/
def routerWithLocal : LambdaRunner :=
  { local_lambda_runner := { provider := { get := fun _ => some FunctionDef.mk } }
    remote_lambda_runner := sampleRemote }

/-- A router whose registry resolves no identifier. -/
def routerAllRemote : LambdaRunner :=
  { local_lambda_runner := { provider := { get := fun _ => none } }
    remote_lambda_runner := sampleRemote }

/-- A successful execution record with payload bytes `"hi"`. -/
def recOk : RemoteInvokeResponse :=
  { payload := [104, 105], error := none, logResult := none }

/-- An error record without a `LogResult` field. -/
def recErr : RemoteInvokeResponse :=
  { payload := [1, 2, 3], error := some "boom", logResult := none }

/-- An error record whose `LogResult` field decodes (base64 of `"hi"`). -/
def recErrLog : RemoteInvokeResponse :=
  { payload := [1, 2, 3], error := some "boom", logResult := some "aGk=" }

/-- An error record whose `LogResult` field is malformed base64. -/
def recErrBadLog : RemoteInvokeResponse :=
  { payload := [7], error := some "crash", logResult := some "A" }

/-- An error record without a `LogResult` field, distinct payload. -/
def recErrOops : RemoteInvokeResponse :=
  { payload := [9, 9], error := some "oops", logResult := none }

/-- An error record without a `LogResult` field, third variant. -/
def recErrBad : RemoteInvokeResponse :=
  { payload := [5], error := some "bad", logResult := none }

/-! Claim theorems. -/

/-- C1: for every identifier on which the registry lookup
(`local_lambda_runner.provider.get`) returns a defined function,
`LambdaRunner.invoke` delegates the full call (identifier, event, stdout,
stderr) to the local executor exactly once and never invokes the remote
invoker; for every identifier on which the lookup yields nothing, it
delegates to the remote invoker exactly once and never invokes the local
executor. -/
theorem C1_routing_correctness (self : LambdaRunner)
    (function_identifier event : String) (stdout stderr : Option StreamWriter) :
    ((∃ f, self.local_lambda_runner.provider.get function_identifier = some f) →
      self.invoke function_identifier event stdout stderr
        = [ExecutorCall.localCall function_identifier event stdout stderr] ∧
      localCallCount (self.invoke function_identifier event stdout stderr) = 1 ∧
      remoteCallCount (self.invoke function_identifier event stdout stderr) = 0) ∧
    (self.local_lambda_runner.provider.get function_identifier = none →
      self.invoke function_identifier event stdout stderr
        = [ExecutorCall.remoteCall function_identifier event stdout stderr] ∧
      remoteCallCount (self.invoke function_identifier event stdout stderr) = 1 ∧
      localCallCount (self.invoke function_identifier event stdout stderr) = 0) := by
  constructor
  · rintro ⟨f, hf⟩
    refine ⟨?_, ?_, ?_⟩ <;>
      simp [LambdaRunner.invoke, hf, localCallCount, remoteCallCount]
  · intro h
    refine ⟨?_, ?_, ?_⟩ <;>
      simp [LambdaRunner.invoke, h, localCallCount, remoteCallCount]

/-- Witness for C1 at two concrete routers. -/
theorem C1_routing_correctness_witness :
    routerWithLocal.invoke "func" "{}" (some sampleWriter) none
      = [ExecutorCall.localCall "func" "{}" (some sampleWriter) none] ∧
    routerAllRemote.invoke "func" "{}" (some sampleWriter) none
      = [ExecutorCall.remoteCall "func" "{}" (some sampleWriter) none] :=
  ⟨((C1_routing_correctness routerWithLocal "func" "{}" (some sampleWriter) none).1
      ⟨FunctionDef.mk, rfl⟩).1,
   ((C1_routing_correctness routerAllRemote "func" "{}" (some sampleWriter) none).2
      rfl).1⟩

/-- C3: for every remote invocation whose execution record carries no error
indicator and payload bytes `b`, when a stdout sink is supplied
`stdout.write_bytes` is called with exactly `b` — byte-for-byte, no
transformation — and `invoke` returns without raising. -/
theorem C3_success_round_trip (self : RemoteLambdaRunner)
    (function_identifier event : String) (w : StreamWriter)
    (stderr : Option StreamWriter) (rec : RemoteInvokeResponse)
    (herr : rec.error = none) :
    (self.invoke function_identifier event (some w) stderr (some rec)).stdout_trace
      = [WriteEvent.write_bytes rec.payload] ∧
    (self.invoke function_identifier event (some w) stderr (some rec)).outcome
      = InvokeOutcome.success := by
  constructor <;> simp [RemoteLambdaRunner.invoke, herr]

/-- Witness for C3 at a concrete success record. -/
theorem C3_success_round_trip_witness :
    (sampleRemote.invoke "func" "{}" (some sampleWriter) none (some recOk)).stdout_trace
      = [WriteEvent.write_bytes [104, 105]] ∧
    (sampleRemote.invoke "func" "{}" (some sampleWriter) none (some recOk)).outcome
      = InvokeOutcome.success :=
  C3_success_round_trip sampleRemote "func" "{}" sampleWriter none recOk rfl

/-- C4: when the execution result stream yields no record,
`RemoteLambdaRunner.invoke` fails with the transport failure carrying its
descriptive message, and when a stderr sink is supplied the short failure
notice is written to stderr before the failure is raised (the trace is
recorded by the write performed ahead of the raise). -/
theorem C4_empty_stream_transport_failure (self : RemoteLambdaRunner)
    (function_identifier event : String) (stdout stderr : Option StreamWriter) :
    (self.invoke function_identifier event stdout stderr none).outcome
      = InvokeOutcome.transportFailure
        "Remote invoke failed to execute. remote_executor did not return any response when iterating" ∧
    (∀ w, stderr = some w →
      (self.invoke function_identifier event stdout stderr none).stderr_trace
        = [WriteEvent.write_str "Remote invoke failed."]) := by
  refine ⟨rfl, ?_⟩
  rintro w rfl
  rfl

/-- Witness for C4 at a concrete empty stream. -/
theorem C4_empty_stream_transport_failure_witness :
    (sampleRemote.invoke "func" "{}" none (some sampleWriter) none).outcome
      = InvokeOutcome.transportFailure
        "Remote invoke failed to execute. remote_executor did not return any response when iterating" ∧
    (sampleRemote.invoke "func" "{}" none (some sampleWriter) none).stderr_trace
      = [WriteEvent.write_str "Remote invoke failed."] :=
  ⟨(C4_empty_stream_transport_failure sampleRemote "func" "{}" none (some sampleWriter)).1,
   (C4_empty_stream_transport_failure sampleRemote "func" "{}" none (some sampleWriter)).2
     sampleWriter rfl⟩

/-- C5: on every call that obtains an execution record — success and error
paths alike — the result stream is pulled exactly once and the response
payload body is read exactly once. -/
theorem C5_single_consumption (self : RemoteLambdaRunner)
    (function_identifier event : String) (stdout stderr : Option StreamWriter)
    (rec : RemoteInvokeResponse) :
    (self.invoke function_identifier event stdout stderr (some rec)).stream_pulls = 1 ∧
    (self.invoke function_identifier event stdout stderr (some rec)).payload_reads = 1 := by
  obtain ⟨p, e, l⟩ := rec
  constructor <;>
  · unfold RemoteLambdaRunner.invoke
    cases e <;> (dsimp only; repeat' first | rfl | split)

/-- C9: on every invocation that obtains an execution record — success or
failure alike — the raw response payload is printed to the generic diagnostic
channel (`print("RESPONSE PAYLOAD", ...)`), outside the structured stderr
sink path, for every debugging status and every sink configuration. -/
theorem C9_unconditional_payload_print (self : RemoteLambdaRunner)
    (function_identifier event : String) (stdout stderr : Option StreamWriter)
    (rec : RemoteInvokeResponse) :
    (self.invoke function_identifier event stdout stderr (some rec)).print_trace
      = [rec.payload] := by
  obtain ⟨p, e, l⟩ := rec
  unfold RemoteLambdaRunner.invoke
  cases e <;> (dsimp only; repeat' first | rfl | split)

/-- C2 counterexample: with a truthy debug context and an error record that
has no `LogResult` field, the stderr writes are performed but `invoke` does
not fail with the FunctionError carrying the record's error detail — the
unguarded `response["LogResult"]` access in the debug block raises first. -/
theorem C2_error_round_trip_cex :
    (debugRemote.invoke "func" "{}" none (some sampleWriter) (some recErrOops)).stderr_trace
      = [WriteEvent.write_str "Remote invoke failed", WriteEvent.write_bytes [9, 9]] ∧
    (debugRemote.invoke "func" "{}" none (some sampleWriter) (some recErrOops)).outcome
      ≠ InvokeOutcome.functionError "oops" ∧
    (debugRemote.invoke "func" "{}" none (some sampleWriter) (some recErrOops)).outcome
      = InvokeOutcome.keyError "LogResult" := by decide

/-- C2 (amended): for every execution record carrying an error indicator with
payload bytes `b`, provided debugging is inactive or the record's log field
is present and decodes as base64: when a stderr sink is supplied, stderr
receives the failure notice string followed by exactly the raw payload bytes,
and `invoke` fails with the FunctionError carrying the error detail from the
record; when stderr is omitted, nothing is written to it and `invoke` still
raises the same FunctionError. -/
theorem C2_error_round_trip_amended (self : RemoteLambdaRunner)
    (function_identifier event : String) (stdout stderr : Option StreamWriter)
    (rec : RemoteInvokeResponse) (err : String)
    (herr : rec.error = some err)
    (hdbg : self.is_debugging = false ∨
      ∃ raw decoded, rec.logResult = some raw ∧ b64decode raw = some decoded) :
    (self.invoke function_identifier event stdout stderr (some rec)).outcome
      = InvokeOutcome.functionError err ∧
    (∀ w, stderr = some w →
      (self.invoke function_identifier event stdout stderr (some rec)).stderr_trace
        = [WriteEvent.write_str "Remote invoke failed",
           WriteEvent.write_bytes rec.payload]) ∧
    (stderr = none →
      (self.invoke function_identifier event stdout stderr (some rec)).stderr_trace
        = []) := by
  obtain hdbg | ⟨raw, decoded, hlog, hdec⟩ := hdbg
  · refine ⟨?_, ?_, ?_⟩
    · simp [RemoteLambdaRunner.invoke, herr, hdbg]
    · rintro w rfl
      simp [RemoteLambdaRunner.invoke, herr, hdbg]
    · rintro rfl
      simp [RemoteLambdaRunner.invoke, herr, hdbg]
  · refine ⟨?_, ?_, ?_⟩
    · cases hd : self.is_debugging <;>
        simp [RemoteLambdaRunner.invoke, herr, hlog, hdec, hd]
    · rintro w rfl
      cases hd : self.is_debugging <;>
        simp [RemoteLambdaRunner.invoke, herr, hlog, hdec, hd]
    · rintro rfl
      cases hd : self.is_debugging <;>
        simp [RemoteLambdaRunner.invoke, herr, hlog, hdec, hd]

/-- Witness for the amended C2, on both sides of the proviso: no debugging
without a log field, and debugging with a decodable log field. -/
theorem C2_error_round_trip_witness :
    (sampleRemote.invoke "func" "{}" none (some sampleWriter) (some recErr)).outcome
      = InvokeOutcome.functionError "boom" ∧
    (sampleRemote.invoke "func" "{}" none (some sampleWriter) (some recErr)).stderr_trace
      = [WriteEvent.write_str "Remote invoke failed", WriteEvent.write_bytes [1, 2, 3]] ∧
    (debugRemote.invoke "func" "{}" none none (some recErrLog)).outcome
      = InvokeOutcome.functionError "boom" ∧
    (debugRemote.invoke "func" "{}" none none (some recErrLog)).stderr_trace = [] :=
  ⟨(C2_error_round_trip_amended sampleRemote "func" "{}" none (some sampleWriter)
      recErr "boom" rfl (Or.inl rfl)).1,
   (C2_error_round_trip_amended sampleRemote "func" "{}" none (some sampleWriter)
      recErr "boom" rfl (Or.inl rfl)).2.1 sampleWriter rfl,
   (C2_error_round_trip_amended debugRemote "func" "{}" none none
      recErrLog "boom" rfl (Or.inr ⟨"aGk=", [104, 105], rfl, by decide⟩)).1,
   (C2_error_round_trip_amended debugRemote "func" "{}" none none
      recErrLog "boom" rfl (Or.inr ⟨"aGk=", [104, 105], rfl, by decide⟩)).2.2 rfl⟩

/-- C6 counterexample: with debugging active and an error record whose log
field is malformed base64, no decoded log is emitted to the diagnostic
channel, and the debugging status alters the outcome — `binascii.Error`
instead of the FunctionError the same invocation produces without a debug
context. -/
theorem C6_debug_gating_cex :
    debugRemote.is_debugging = true ∧
    (debugRemote.invoke "func" "{}" none none (some recErrBadLog)).log_trace
      = [LogEvent.logStr "Remote invoke failed:"] ∧
    (debugRemote.invoke "func" "{}" none none (some recErrBadLog)).outcome
      = InvokeOutcome.binasciiError ∧
    (sampleRemote.invoke "func" "{}" none none (some recErrBadLog)).outcome
      = InvokeOutcome.functionError "crash" ∧
    (debugRemote.invoke "func" "{}" none none (some recErrBadLog)).outcome
      ≠ (sampleRemote.invoke "func" "{}" none none (some recErrBadLog)).outcome := by
  decide

/-- C6 (amended): `is_debugging` returns true iff a truthy `DebugContext` was
supplied at construction; and for every invocation whose record carries an
error indicator and a log field that decodes as base64, when `is_debugging`
is true the decoded log field is emitted to the diagnostic channel in
addition to the standard stderr error path, while the outcome is the
FunctionError regardless of the debugging status. -/
theorem C6_debug_gating_amended :
    (∀ self : RemoteLambdaRunner,
      self.is_debugging = true ↔
        ∃ ctx, self.debug_context = some ctx ∧ ctx.truthy = true) ∧
    (∀ (self : RemoteLambdaRunner) (function_identifier event : String)
        (stdout stderr : Option StreamWriter) (rec : RemoteInvokeResponse)
        (err raw : String) (decoded : Bytes),
      rec.error = some err → rec.logResult = some raw →
      b64decode raw = some decoded →
      (self.is_debugging = true →
        (self.invoke function_identifier event stdout stderr (some rec)).log_trace
          = [LogEvent.logStr "Remote invoke failed:", LogEvent.logBytes decoded] ∧
        (∀ w, stderr = some w →
          (self.invoke function_identifier event stdout stderr (some rec)).stderr_trace
            = [WriteEvent.write_str "Remote invoke failed",
               WriteEvent.write_bytes rec.payload])) ∧
      (self.invoke function_identifier event stdout stderr (some rec)).outcome
        = InvokeOutcome.functionError err) := by
  constructor
  · intro self
    constructor
    · intro h
      match hctx : self.debug_context with
      | none => simp [RemoteLambdaRunner.is_debugging, hctx] at h
      | some ctx =>
        exact ⟨ctx, rfl, by
          simpa [RemoteLambdaRunner.is_debugging, hctx] using h⟩
    · rintro ⟨ctx, hctx, htr⟩
      simp [RemoteLambdaRunner.is_debugging, hctx, htr]
  · intro self function_identifier event stdout stderr rec err raw decoded
      herr hlog hdec
    refine ⟨fun hd => ⟨?_, ?_⟩, ?_⟩
    · simp [RemoteLambdaRunner.invoke, herr, hlog, hdec, hd]
    · rintro w rfl
      simp [RemoteLambdaRunner.invoke, herr, hlog, hdec, hd]
    · cases hd : self.is_debugging <;>
        simp [RemoteLambdaRunner.invoke, herr, hlog, hdec, hd]

/-- Witness for the amended C6 at a concrete debug runner and decodable
log field. -/
theorem C6_debug_gating_witness :
    debugRemote.is_debugging = true ∧
    (debugRemote.invoke "func" "{}" none (some sampleWriter) (some recErrLog)).log_trace
      = [LogEvent.logStr "Remote invoke failed:", LogEvent.logBytes [104, 105]] ∧
    (debugRemote.invoke "func" "{}" none (some sampleWriter) (some recErrLog)).stderr_trace
      = [WriteEvent.write_str "Remote invoke failed", WriteEvent.write_bytes [1, 2, 3]] ∧
    (debugRemote.invoke "func" "{}" none (some sampleWriter) (some recErrLog)).outcome
      = InvokeOutcome.functionError "boom" := by
  have hdbg : debugRemote.is_debugging = true :=
    (C6_debug_gating_amended.1 debugRemote).mpr ⟨⟨true⟩, rfl, rfl⟩
  have h := C6_debug_gating_amended.2 debugRemote "func" "{}" none
    (some sampleWriter) recErrLog "boom" "aGk=" [104, 105] rfl rfl (by decide)
  exact ⟨hdbg, (h.1 hdbg).1, (h.1 hdbg).2 sampleWriter rfl, h.2⟩

/-- C7: the claim states that a failure of the debug-log decoding step never
masks the primary error; the code, however, evaluates
`base64.b64decode(response["LogResult"])` unguarded inside the debug block,
so with debugging active and an error record lacking a `LogResult` field the
`KeyError` escapes before `raise Exception(remote_invoke_response.error)` and
no FunctionError is raised. This evaluation exhibits the divergence. -/
theorem C7_debug_failure_masks_primary_error :
    (debugRemote.invoke "func" "{}" none (some sampleWriter) (some recErr)).outcome
      = InvokeOutcome.keyError "LogResult" ∧
    ∀ d, (debugRemote.invoke "func" "{}" none (some sampleWriter) (some recErr)).outcome
      ≠ InvokeOutcome.functionError d := by
  refine ⟨rfl, fun d h => ?_⟩
  rw [show (debugRemote.invoke "func" "{}" none (some sampleWriter) (some recErr)).outcome
      = InvokeOutcome.keyError "LogResult" from rfl] at h
  simp at h

/-- C8 counterexample: with both sinks omitted, debugging active, and an
error record lacking a `LogResult` field, the error path raises the
`KeyError` from the debug block — not one of the specified failures
(FunctionError or TransportFailure). -/
theorem C8_no_sink_cex :
    (debugRemote.invoke "func" "{}" none none (some recErrBad)).outcome
      = InvokeOutcome.keyError "LogResult" ∧
    (∀ d, (debugRemote.invoke "func" "{}" none none (some recErrBad)).outcome
      ≠ InvokeOutcome.functionError d) ∧
    (∀ m, (debugRemote.invoke "func" "{}" none none (some recErrBad)).outcome
      ≠ InvokeOutcome.transportFailure m) := by
  refine ⟨rfl, fun d h => ?_, fun m h => ?_⟩ <;>
  · rw [show (debugRemote.invoke "func" "{}" none none (some recErrBad)).outcome
        = InvokeOutcome.keyError "LogResult" from rfl] at h
    simp at h

/-- C8 (amended): with both stdout and stderr omitted, no write is performed
on any sink (so no null-reference-class defect can arise — every sink method
call in the source is guarded), the success path completes without error, and
the outcome is exactly the outcome the same invocation produces with sinks
supplied — the error paths raise only the failures those paths produce
regardless of sinks. -/
theorem C8_no_sink_amended (self : RemoteLambdaRunner)
    (function_identifier event : String)
    (stream : Option RemoteInvokeResponse) :
    (self.invoke function_identifier event none none stream).stdout_trace = [] ∧
    (self.invoke function_identifier event none none stream).stderr_trace = [] ∧
    (∀ rec, stream = some rec → rec.error = none →
      (self.invoke function_identifier event none none stream).outcome
        = InvokeOutcome.success) ∧
    (∀ stdout stderr : Option StreamWriter,
      (self.invoke function_identifier event stdout stderr stream).outcome
        = (self.invoke function_identifier event none none stream).outcome) := by
  refine ⟨?_, ?_, ?_, ?_⟩
  · match stream with
    | none => rfl
    | some rec =>
      obtain ⟨p, e, l⟩ := rec
      unfold RemoteLambdaRunner.invoke
      cases e <;> (dsimp only; repeat' first | rfl | split)
  · match stream with
    | none => rfl
    | some rec =>
      obtain ⟨p, e, l⟩ := rec
      unfold RemoteLambdaRunner.invoke
      cases e <;> (dsimp only; repeat' first | rfl | split)
  · rintro rec rfl herr
    simp [RemoteLambdaRunner.invoke, herr]
  · intro stdout stderr
    match stream with
    | none => rfl
    | some rec =>
      obtain ⟨p, e, l⟩ := rec
      unfold RemoteLambdaRunner.invoke
      cases e <;> (dsimp only; repeat' first | rfl | split)

/-- Witness for the amended C8 at concrete success and error records. -/
theorem C8_no_sink_witness :
    (sampleRemote.invoke "func" "{}" none none (some recOk)).stdout_trace = [] ∧
    (sampleRemote.invoke "func" "{}" none none (some recOk)).stderr_trace = [] ∧
    (sampleRemote.invoke "func" "{}" none none (some recOk)).outcome
      = InvokeOutcome.success ∧
    (sampleRemote.invoke "func" "{}" (some sampleWriter) (some sampleWriter)
        (some recErr)).outcome
      = (sampleRemote.invoke "func" "{}" none none (some recErr)).outcome :=
  ⟨(C8_no_sink_amended sampleRemote "func" "{}" (some recOk)).1,
   (C8_no_sink_amended sampleRemote "func" "{}" (some recOk)).2.1,
   (C8_no_sink_amended sampleRemote "func" "{}" (some recOk)).2.2.1 recOk rfl rfl,
   (C8_no_sink_amended sampleRemote "func" "{}" (some recErr)).2.2.2
     (some sampleWriter) (some sampleWriter)⟩

/-- C10: on the error path the stdout sink receives no write at all, even
when supplied — payload bytes are routed exclusively to stderr on the error
path and exclusively to stdout on the success path. -/
theorem C10_payload_routing (self : RemoteLambdaRunner)
    (function_identifier event : String) (stdout stderr : Option StreamWriter)
    (rec : RemoteInvokeResponse) :
    ((∃ e, rec.error = some e) →
      (self.invoke function_identifier event stdout stderr (some rec)).stdout_trace
        = [] ∧
      (∀ w, stderr = some w →
        (self.invoke function_identifier event stdout stderr (some rec)).stderr_trace
          = [WriteEvent.write_str "Remote invoke failed",
             WriteEvent.write_bytes rec.payload])) ∧
    (rec.error = none →
      (self.invoke function_identifier event stdout stderr (some rec)).stderr_trace
        = [] ∧
      (∀ w, stdout = some w →
        (self.invoke function_identifier event stdout stderr (some rec)).stdout_trace
          = [WriteEvent.write_bytes rec.payload])) := by
  constructor
  · rintro ⟨e, herr⟩
    constructor
    · obtain ⟨p, er, l⟩ := rec
      cases herr
      unfold RemoteLambdaRunner.invoke
      dsimp only
      repeat' first | rfl | split
    · rintro w rfl
      obtain ⟨p, er, l⟩ := rec
      cases herr
      unfold RemoteLambdaRunner.invoke
      dsimp only
      repeat' first | rfl | split
  · intro herr
    refine ⟨by simp [RemoteLambdaRunner.invoke, herr], ?_⟩
    rintro w rfl
    simp [RemoteLambdaRunner.invoke, herr]

/-- Witness for C10 at concrete error and success records. -/
theorem C10_payload_routing_witness :
    (sampleRemote.invoke "func" "{}" (some sampleWriter) (some sampleWriter)
        (some recErr)).stdout_trace = [] ∧
    (sampleRemote.invoke "func" "{}" (some sampleWriter) (some sampleWriter)
        (some recErr)).stderr_trace
      = [WriteEvent.write_str "Remote invoke failed",
         WriteEvent.write_bytes [1, 2, 3]] ∧
    (sampleRemote.invoke "func" "{}" (some sampleWriter) (some sampleWriter)
        (some recOk)).stderr_trace = [] ∧
    (sampleRemote.invoke "func" "{}" (some sampleWriter) (some sampleWriter)
        (some recOk)).stdout_trace = [WriteEvent.write_bytes [104, 105]] :=
  ⟨((C10_payload_routing sampleRemote "func" "{}" (some sampleWriter)
      (some sampleWriter) recErr).1 ⟨"boom", rfl⟩).1,
   ((C10_payload_routing sampleRemote "func" "{}" (some sampleWriter)
      (some sampleWriter) recErr).1 ⟨"boom", rfl⟩).2 sampleWriter rfl,
   ((C10_payload_routing sampleRemote "func" "{}" (some sampleWriter)
      (some sampleWriter) recOk).2 rfl).1,
   ((C10_payload_routing sampleRemote "func" "{}" (some sampleWriter)
      (some sampleWriter) recOk).2 rfl).2 sampleWriter rfl⟩

end SamCli
